import Mathlib

/-!
Verification of the HTML-to-PDF generator service (`pdf_service.py`).

The file embeds the two components of the service as Lean functions:

* `cleanup_old_pdfs` — the retention sweeper.  One cycle of the
  `while True` loop is modelled by `removedEntries` / `survivors` /
  `sweepLogs` over a listing of directory entries; the perpetual loop
  itself is modelled by the step relation `CleanupStep`.  Per-file
  filesystem errors (the `try/except` around `isfile`/`getmtime`/`remove`)
  are modelled by the error flags on `DirEntry`.

* `generate_pdf` — the request handler.  Browser interactions
  (`add_cookies`, `set_content`, `goto`, `page.pdf`) are recorded as an
  effect list; the JSON response is the returned value.
-/

namespace PdfService

/-- One entry of `os.listdir(PDF_DIR)` together with the file metadata the
sweep consults.  `mtimeError` models `os.path.getmtime` raising;
`removeError` models `os.remove` raising.  Both are caught by the
`except Exception: pass` in the source. -/
structure DirEntry where
  name : String
  isFile : Bool
  mtime : Int
  mtimeError : Bool
  removeError : Bool
deriving DecidableEq, Repr

/-- Whether one pass of the loop body deletes the entry:
`os.path.isfile` holds, `getmtime` succeeds, `now - mtime > PDF_RETENTION_SECONDS`,
and `os.remove` succeeds.  (`retention` is `PDF_RETENTION_SECONDS`,
`now` is `time.time()` sampled at the top of the cycle.) -/
def sweepDeletes (retention now : Int) (e : DirEntry) : Bool :=
  e.isFile && !e.mtimeError && decide (now - e.mtime > retention) && !e.removeError

/-- The entry raises a per-file filesystem error during the cycle: either
`os.path.getmtime` raises, or the age check passes and `os.remove` raises. -/
def raisesFileError (retention now : Int) (e : DirEntry) : Prop :=
  e.isFile = true ∧
    (e.mtimeError = true ∨
      (e.mtimeError = false ∧ now - e.mtime > retention ∧ e.removeError = true))

/-- The entries one sweep cycle removes from the directory listing `es`. -/
def removedEntries (retention now : Int) (es : List DirEntry) : List DirEntry :=
  es.filter (sweepDeletes retention now)

/-- The tally `removed` at the end of one cycle. -/
def removedCount (retention now : Int) (es : List DirEntry) : Nat :=
  (removedEntries retention now es).length

/-- The entries that survive one sweep cycle. -/
def survivors (retention now : Int) (es : List DirEntry) : List DirEntry :=
  es.filter (fun e => !(sweepDeletes retention now e))

/-- The log lines one cycle prints: `print(f"[CLEANUP] Removed {removed} expired PDF(s)")`
exactly when `removed > 0`. -/
def sweepLogs (retention now : Int) (es : List DirEntry) : List String :=
  let n := removedCount retention now es
  if n > 0 then ["[CLEANUP] Removed " ++ toString n ++ " expired PDF(s)"] else []

/-- State of the perpetual sweeper loop: the current clock and the
current directory listing. -/
structure SweeperState where
  time : Int
  dir : List DirEntry
deriving DecidableEq, Repr

/-- The configuration the sweeper reads: `PDF_RETENTION_SECONDS` and
`PDF_CLEANUP_INTERVAL`. -/
structure SweepConfig where
  retention : Int
  interval : Int
deriving DecidableEq, Repr

/-- One iteration of the `while True` body: sweep the directory, then
`await asyncio.sleep(PDF_CLEANUP_INTERVAL)` advances the clock. -/
def cleanupIter (cfg : SweepConfig) (s : SweeperState) : SweeperState :=
  { time := s.time + cfg.interval
    dir := survivors cfg.retention s.time s.dir }

/-- The loop's transition relation.  The body has a single control path
back to the top of the loop (no `break`, `return`, or cancellation),
so the only transition is one full iteration. -/
def CleanupStep (cfg : SweepConfig) (s s' : SweeperState) : Prop :=
  s' = cleanupIter cfg s

/-- A state with no outgoing transition. -/
def CleanupTerminal (cfg : SweepConfig) (s : SweeperState) : Prop :=
  ∀ s', ¬ CleanupStep cfg s s'

/-! ## The request handler -/

/-- Lookup of a key in a JSON object / cookie jar, modelled as an
association list.  `getKey kvs k = some v` corresponds to `k in data`
with `data[k] == v`; `none` corresponds to the key being absent. -/
def getKey (kvs : List (String × String)) (k : String) : Option String :=
  (kvs.find? (fun kv => kv.1 == k)).map (·.2)

/-- Python truthiness of an optional string (`None` and `""` are falsy). -/
def truthy : Option String → Bool
  | none => false
  | some s => !(s == "")

/-- Environment-sourced configuration consulted by the handler:
`PDF_BASE_URL`, `PDF_COOKIE_DOMAIN` and `PORT` (all optional). -/
structure ServiceConfig where
  baseUrl : Option String
  cookieDomain : Option String
  port : Option String
deriving DecidableEq, Repr

/-- The parts of the inbound request the handler consults: URL scheme,
the `host` header, `request.url.hostname`, the cookie jar and the JSON
body. -/
structure HttpRequest where
  scheme : String
  hostHeader : Option String
  hostname : Option String
  cookies : List (String × String)
  body : List (String × String)
deriving DecidableEq, Repr

/-- An observable browser-side effect of the handler. -/
inductive BrowserEffect where
  | addCookie (name value domain path : String)
  | setContent (html : String)
  | goto (url : String)
  | writePdf (path : String)
deriving DecidableEq, Repr

/-- The JSON body of the handler's response. -/
inductive ResponseBody where
  | pdfUrl (u : String)
  | error (msg : String)
deriving DecidableEq, Repr

/-- The handler's outcome: HTTP status, JSON body, and the browser
effects performed, in order. -/
structure HandlerResult where
  status : Nat
  body : ResponseBody
  effects : List BrowserEffect
deriving DecidableEq, Repr

/-- `domain = PDF_COOKIE_DOMAIN or request.url.hostname or "localhost"`. -/
def cookieDomainFor (cfg : ServiceConfig) (req : HttpRequest) : String :=
  if truthy cfg.cookieDomain then cfg.cookieDomain.getD ""
  else if truthy req.hostname then req.hostname.getD ""
  else "localhost"

/-- The cookie-injection step: `if laravel_token: await context.add_cookies([...])`
where `laravel_token = request.cookies.get("token")`. -/
def cookieEffects (cfg : ServiceConfig) (req : HttpRequest) : List BrowserEffect :=
  match getKey req.cookies "token" with
  | none => []
  | some t =>
      if t == "" then []
      else [.addCookie "token" t (cookieDomainFor cfg req) "/"]

/-- `host = request.headers.get("host", f"localhost:{os.environ.get('PORT', 8080)}")`. -/
def hostFor (cfg : ServiceConfig) (req : HttpRequest) : String :=
  req.hostHeader.getD ("localhost:" ++ cfg.port.getD "8080")

/-- `base_url = os.environ.get("PDF_BASE_URL")`, replaced by
`f"{scheme}://{host}"` when falsy. -/
def baseUrlFor (cfg : ServiceConfig) (req : HttpRequest) : String :=
  if truthy cfg.baseUrl then cfg.baseUrl.getD ""
  else req.scheme ++ "://" ++ hostFor cfg req

/-- The 400 message returned when the body has neither key. -/
def missingKeysError : String := "Provide either 'html' or 'url' in the JSON body."

/-- `cs` starts with the character sequence `key`. -/
def leadsWith : List Char → List Char → Bool
  | _, [] => true
  | [], _ :: _ => false
  | c :: cs, d :: ds => c == d && leadsWith cs ds

/-- `key` occurs as a contiguous subsequence of `cs`. -/
def occursIn : List Char → List Char → Bool
  | [], key => key.isEmpty
  | c :: cs, key => leadsWith (c :: cs) key || occursIn cs key

/-- `True` when `key` occurs as a substring of `msg`. -/
def strContains (msg key : String) : Bool := occursIn msg.toList key.toList

/-- The `generate_pdf` handler.  `pdfId` stands for the freshly generated
`str(uuid.uuid4())`.  Effects are recorded in source order: cookie
injection first, then the rendering branch, then `render_pdf`
(`page.pdf(path=output_path, ...)`, recorded as `writePdf`). -/
def generate_pdf (cfg : ServiceConfig) (req : HttpRequest) (pdfId : String) :
    HandlerResult :=
  let outputPath := "generated_pdfs/" ++ pdfId ++ ".pdf"
  let ck := cookieEffects cfg req
  let okBody : ResponseBody :=
    .pdfUrl (baseUrlFor cfg req ++ "/pdfs/" ++ pdfId ++ ".pdf")
  match getKey req.body "html" with
  | some h =>
      { status := 200, body := okBody
        effects := ck ++ [.setContent h, .writePdf outputPath] }
  | none =>
      match getKey req.body "url" with
      | some u =>
          { status := 200, body := okBody
            effects := ck ++ [.goto u, .writePdf outputPath] }
      | none =>
          { status := 400, body := .error missingKeysError, effects := ck }

/-- Recognizer for `addCookie` effects. -/
def isCookieAdd : BrowserEffect → Bool
  | .addCookie _ _ _ _ => true
  | _ => false

/-! ## Helper lemmas -/

theorem generate_pdf_html (cfg : ServiceConfig) (req : HttpRequest) (pdfId h : String)
    (hh : getKey req.body "html" = some h) :
    generate_pdf cfg req pdfId =
      { status := 200
        body := .pdfUrl (baseUrlFor cfg req ++ "/pdfs/" ++ pdfId ++ ".pdf")
        effects := cookieEffects cfg req ++
          [.setContent h, .writePdf ("generated_pdfs/" ++ pdfId ++ ".pdf")] } := by
  unfold generate_pdf
  rw [hh]

theorem generate_pdf_url (cfg : ServiceConfig) (req : HttpRequest) (pdfId u : String)
    (hh : getKey req.body "html" = none) (hu : getKey req.body "url" = some u) :
    generate_pdf cfg req pdfId =
      { status := 200
        body := .pdfUrl (baseUrlFor cfg req ++ "/pdfs/" ++ pdfId ++ ".pdf")
        effects := cookieEffects cfg req ++
          [.goto u, .writePdf ("generated_pdfs/" ++ pdfId ++ ".pdf")] } := by
  unfold generate_pdf
  rw [hh, hu]

theorem generate_pdf_invalid (cfg : ServiceConfig) (req : HttpRequest) (pdfId : String)
    (hh : getKey req.body "html" = none) (hu : getKey req.body "url" = none) :
    generate_pdf cfg req pdfId =
      { status := 400, body := .error missingKeysError
        effects := cookieEffects cfg req } := by
  unfold generate_pdf
  rw [hh, hu]

theorem cookieEffects_all_cookie (cfg : ServiceConfig) (req : HttpRequest) :
    ∀ e ∈ cookieEffects cfg req, isCookieAdd e = true := by
  intro e he
  unfold cookieEffects at he
  cases ht : getKey req.cookies "token" with
  | none => rw [ht] at he; cases he
  | some t =>
    rw [ht] at he
    by_cases h0 : (t == "") = true
    · simp [h0] at he
    · simp [h0] at he
      subst he
      rfl

theorem cookieEffects_filter (cfg : ServiceConfig) (req : HttpRequest) :
    (cookieEffects cfg req).filter isCookieAdd = cookieEffects cfg req :=
  List.filter_eq_self.mpr (cookieEffects_all_cookie cfg req)

theorem cookieEffects_none (cfg : ServiceConfig) (req : HttpRequest)
    (ht : getKey req.cookies "token" = none) : cookieEffects cfg req = [] := by
  unfold cookieEffects
  rw [ht]

theorem cookieEffects_empty (cfg : ServiceConfig) (req : HttpRequest)
    (ht : getKey req.cookies "token" = some "") : cookieEffects cfg req = [] := by
  unfold cookieEffects
  rw [ht]
  rfl

theorem cookieEffects_token (cfg : ServiceConfig) (req : HttpRequest) (t : String)
    (ht : getKey req.cookies "token" = some t) (hne : t ≠ "") :
    cookieEffects cfg req = [.addCookie "token" t (cookieDomainFor cfg req) "/"] := by
  unfold cookieEffects
  rw [ht]
  simp [hne]

theorem sweepDeletes_eq_false_of_raises (retention now : Int) (e : DirEntry)
    (he : raisesFileError retention now e) :
    sweepDeletes retention now e = false := by
  obtain ⟨-, hm | ⟨hm, hage, hr⟩⟩ := he
  · simp [sweepDeletes, hm]
  · simp [sweepDeletes, hm, hr]

theorem generate_pdf_cookie_filter (cfg : ServiceConfig) (req : HttpRequest)
    (pdfId : String) :
    (generate_pdf cfg req pdfId).effects.filter isCookieAdd = cookieEffects cfg req := by
  cases hh : getKey req.body "html" with
  | some h =>
    rw [generate_pdf_html cfg req pdfId h hh]
    simp [List.filter_append, isCookieAdd, cookieEffects_filter]
  | none =>
    cases hu : getKey req.body "url" with
    | some u =>
      rw [generate_pdf_url cfg req pdfId u hh hu]
      simp [List.filter_append, isCookieAdd, cookieEffects_filter]
    | none =>
      rw [generate_pdf_invalid cfg req pdfId hh hu]
      exact cookieEffects_filter cfg req

/-! ## Claims -/

/-- C1: a request body containing neither `html` nor `url` yields a 400
response whose JSON body is an error message naming both required keys;
no rendering effect (`setContent`/`goto`) and no file write (`writePdf`)
is performed. -/
theorem missing_body_keys_yield_400_no_render (cfg : ServiceConfig) (req : HttpRequest)
    (pdfId : String)
    (hh : getKey req.body "html" = none) (hu : getKey req.body "url" = none) :
    (generate_pdf cfg req pdfId).status = 400 ∧
    (generate_pdf cfg req pdfId).body = .error missingKeysError ∧
    strContains missingKeysError "html" = true ∧
    strContains missingKeysError "url" = true ∧
    (∀ s, BrowserEffect.setContent s ∉ (generate_pdf cfg req pdfId).effects) ∧
    (∀ u, BrowserEffect.goto u ∉ (generate_pdf cfg req pdfId).effects) ∧
    (∀ p, BrowserEffect.writePdf p ∉ (generate_pdf cfg req pdfId).effects) := by
  rw [generate_pdf_invalid cfg req pdfId hh hu]
  refine ⟨rfl, rfl, by decide, by decide, ?_, ?_, ?_⟩ <;>
    intro x hx <;>
    exact absurd (cookieEffects_all_cookie cfg req _ hx) (by simp [isCookieAdd])

/-- C1 witness: concrete empty body. -/
theorem missing_body_keys_yield_400_no_render_witness :
    (generate_pdf ⟨none, none, none⟩ ⟨"http", some "h", some "h", [], []⟩ "id").status = 400 ∧
    (generate_pdf ⟨none, none, none⟩ ⟨"http", some "h", some "h", [], []⟩ "id").body =
      .error missingKeysError ∧
    strContains missingKeysError "html" = true ∧
    strContains missingKeysError "url" = true ∧
    (∀ s, BrowserEffect.setContent s ∉
      (generate_pdf ⟨none, none, none⟩ ⟨"http", some "h", some "h", [], []⟩ "id").effects) ∧
    (∀ u, BrowserEffect.goto u ∉
      (generate_pdf ⟨none, none, none⟩ ⟨"http", some "h", some "h", [], []⟩ "id").effects) ∧
    (∀ p, BrowserEffect.writePdf p ∉
      (generate_pdf ⟨none, none, none⟩ ⟨"http", some "h", some "h", [], []⟩ "id").effects) :=
  missing_body_keys_yield_400_no_render ⟨none, none, none⟩
    ⟨"http", some "h", some "h", [], []⟩ "id" rfl rfl

/-- C2: within one sweep cycle, an error-free regular file is removed
exactly when its age `now - mtime` strictly exceeds the retention
threshold, and survives exactly when it does not. -/
theorem sweep_deletes_iff_age_exceeds (retention now : Int) (es : List DirEntry)
    (e : DirEntry) (he : e ∈ es) (hf : e.isFile = true)
    (hm : e.mtimeError = false) (hr : e.removeError = false) :
    (e ∈ removedEntries retention now es ↔ now - e.mtime > retention) ∧
    (e ∈ survivors retention now es ↔ now - e.mtime ≤ retention) := by
  constructor
  · rw [removedEntries, List.mem_filter]
    simp [sweepDeletes, hf, hm, hr, he]
  · rw [survivors, List.mem_filter]
    simp [sweepDeletes, hf, hm, hr, he, not_lt]

/-- C2 witness: a stale file is removed, a fresh one survives. -/
theorem sweep_deletes_iff_age_exceeds_witness :
    ((⟨"a.pdf", true, 1000, false, false⟩ : DirEntry) ∈
        removedEntries 3600 10000 [⟨"a.pdf", true, 1000, false, false⟩] ↔
      (10000 : Int) - 1000 > 3600) ∧
    ((⟨"a.pdf", true, 1000, false, false⟩ : DirEntry) ∈
        survivors 3600 10000 [⟨"a.pdf", true, 1000, false, false⟩] ↔
      (10000 : Int) - 1000 ≤ 3600) :=
  sweep_deletes_iff_age_exceeds 3600 10000 [⟨"a.pdf", true, 1000, false, false⟩]
    ⟨"a.pdf", true, 1000, false, false⟩ (by decide) rfl rfl rfl

/-- C3: when the body has both `html` and `url`, the handler renders the
supplied markup (a `setContent` effect with the `html` value) and never
navigates (`goto`) to the supplied address; the request succeeds. -/
theorem html_branch_wins_over_url (cfg : ServiceConfig) (req : HttpRequest)
    (pdfId h u : String)
    (hh : getKey req.body "html" = some h) (hu : getKey req.body "url" = some u) :
    BrowserEffect.setContent h ∈ (generate_pdf cfg req pdfId).effects ∧
    (∀ v, BrowserEffect.goto v ∉ (generate_pdf cfg req pdfId).effects) ∧
    (generate_pdf cfg req pdfId).status = 200 := by
  rw [generate_pdf_html cfg req pdfId h hh]
  refine ⟨by simp, ?_, rfl⟩
  intro v hv
  rcases List.mem_append.mp hv with hv | hv
  · exact absurd (cookieEffects_all_cookie cfg req _ hv) (by simp [isCookieAdd])
  · simp at hv

/-- C3 witness: both keys present, HTML branch taken. -/
theorem html_branch_wins_over_url_witness :
    BrowserEffect.setContent "<p>a</p>" ∈
      (generate_pdf ⟨none, none, none⟩
        ⟨"http", some "h", some "h", [], [("html", "<p>a</p>"), ("url", "https://x")]⟩
        "id").effects ∧
    (∀ v, BrowserEffect.goto v ∉
      (generate_pdf ⟨none, none, none⟩
        ⟨"http", some "h", some "h", [], [("html", "<p>a</p>"), ("url", "https://x")]⟩
        "id").effects) ∧
    (generate_pdf ⟨none, none, none⟩
      ⟨"http", some "h", some "h", [], [("html", "<p>a</p>"), ("url", "https://x")]⟩
      "id").status = 200 :=
  html_branch_wins_over_url ⟨none, none, none⟩
    ⟨"http", some "h", some "h", [], [("html", "<p>a</p>"), ("url", "https://x")]⟩
    "id" "<p>a</p>" "https://x" rfl rfl

/-- C4: a successful request returns `pdf_url = B ++ "/pdfs/" ++ id ++ ".pdf"`,
where `B` is the configured base-URL override when set (non-empty), and
otherwise `scheme ++ "://" ++ host` from the inbound request. -/
theorem pdf_url_shape (cfg : ServiceConfig) (req : HttpRequest) (pdfId : String)
    (hs : getKey req.body "html" ≠ none ∨ getKey req.body "url" ≠ none) :
    (generate_pdf cfg req pdfId).status = 200 ∧
    (generate_pdf cfg req pdfId).body =
      .pdfUrl (baseUrlFor cfg req ++ "/pdfs/" ++ pdfId ++ ".pdf") ∧
    (∀ b, cfg.baseUrl = some b → b ≠ "" → baseUrlFor cfg req = b) ∧
    (cfg.baseUrl = none → ∀ hh, req.hostHeader = some hh →
      baseUrlFor cfg req = req.scheme ++ "://" ++ hh) := by
  have hmain : (generate_pdf cfg req pdfId).status = 200 ∧
      (generate_pdf cfg req pdfId).body =
        .pdfUrl (baseUrlFor cfg req ++ "/pdfs/" ++ pdfId ++ ".pdf") := by
    cases hh : getKey req.body "html" with
    | some h => rw [generate_pdf_html cfg req pdfId h hh]; exact ⟨rfl, rfl⟩
    | none =>
      cases hu : getKey req.body "url" with
      | some u => rw [generate_pdf_url cfg req pdfId u hh hu]; exact ⟨rfl, rfl⟩
      | none => rcases hs with hs | hs
                · exact absurd hh hs
                · exact absurd hu hs
  refine ⟨hmain.1, hmain.2, ?_, ?_⟩
  · intro b hb hbne
    simp [baseUrlFor, hb, truthy, hbne]
  · intro hnone hh hhh
    simp [baseUrlFor, hnone, truthy, hostFor, hhh]

/-- C4 witness: no override configured, URL derived from scheme and host. -/
theorem pdf_url_shape_witness :
    (generate_pdf ⟨none, none, none⟩
      ⟨"https", some "api.example.com", some "api.example.com", [], [("url", "https://x")]⟩
      "id").status = 200 ∧
    (generate_pdf ⟨none, none, none⟩
      ⟨"https", some "api.example.com", some "api.example.com", [], [("url", "https://x")]⟩
      "id").body =
      .pdfUrl (baseUrlFor ⟨none, none, none⟩
        ⟨"https", some "api.example.com", some "api.example.com", [], [("url", "https://x")]⟩ ++
        "/pdfs/" ++ "id" ++ ".pdf") ∧
    (∀ b, (⟨none, none, none⟩ : ServiceConfig).baseUrl = some b → b ≠ "" →
      baseUrlFor ⟨none, none, none⟩
        ⟨"https", some "api.example.com", some "api.example.com", [], [("url", "https://x")]⟩ = b) ∧
    ((⟨none, none, none⟩ : ServiceConfig).baseUrl = none →
      ∀ hh, (⟨"https", some "api.example.com", some "api.example.com", [],
          [("url", "https://x")]⟩ : HttpRequest).hostHeader = some hh →
        baseUrlFor ⟨none, none, none⟩
          ⟨"https", some "api.example.com", some "api.example.com", [], [("url", "https://x")]⟩ =
          "https" ++ "://" ++ hh) :=
  pdf_url_shape ⟨none, none, none⟩
    ⟨"https", some "api.example.com", some "api.example.com", [], [("url", "https://x")]⟩
    "id" (Or.inr (by decide))

/-- C5 counterexample: a request that carries a `token` cookie whose value
is the empty string.  The claim requires exactly one `addCookie` effect,
but the handler performs none (`if laravel_token:` is a truthiness test). -/
theorem token_cookie_claim_fails_on_empty_value :
    getKey ([("token", "")] : List (String × String)) "token" = some "" ∧
    ((generate_pdf ⟨none, none, none⟩
        ⟨"http", some "app.example.com", some "app.example.com", [("token", "")],
          [("html", "<p>x</p>")]⟩ "abc").effects.filter isCookieAdd).length = 0 := by
  decide

/-- C5 (amended): for every request whose `token` cookie has a non-empty
value, the handler adds exactly one cookie named `token` with that value
and path `/`, whose domain is the configured override when set non-empty,
and otherwise the request's (non-empty) hostname; a request whose `token`
cookie is absent or empty-valued gets no cookie. -/
theorem token_cookie_injection (cfg : ServiceConfig) (req : HttpRequest)
    (pdfId t : String)
    (ht : getKey req.cookies "token" = some t) (hne : t ≠ "") :
    (generate_pdf cfg req pdfId).effects.filter isCookieAdd =
      [.addCookie "token" t (cookieDomainFor cfg req) "/"] ∧
    (∀ d, cfg.cookieDomain = some d → d ≠ "" → cookieDomainFor cfg req = d) ∧
    (cfg.cookieDomain = none → ∀ hn, req.hostname = some hn → hn ≠ "" →
      cookieDomainFor cfg req = hn) ∧
    (∀ cfg2 req2 pdfId2,
      (getKey req2.cookies "token" = none ∨ getKey req2.cookies "token" = some "") →
      (generate_pdf cfg2 req2 pdfId2).effects.filter isCookieAdd = []) := by
  refine ⟨?_, ?_, ?_, ?_⟩
  · rw [generate_pdf_cookie_filter, cookieEffects_token cfg req t ht hne]
  · intro d hd hdne
    simp [cookieDomainFor, hd, truthy, hdne]
  · intro hnone hn hhn hnne
    simp [cookieDomainFor, hnone, truthy, hhn, hnne]
  · intro cfg2 req2 pdfId2 habs
    rw [generate_pdf_cookie_filter]
    rcases habs with h | h
    · exact cookieEffects_none _ _ h
    · exact cookieEffects_empty _ _ h

/-- C5 witness: a non-empty token cookie is forwarded once, scoped to the
request's hostname. -/
theorem token_cookie_injection_witness :
    (generate_pdf ⟨none, none, none⟩
      ⟨"http", some "h", some "app.example.com", [("token", "secret")], [("html", "<p>")]⟩
      "id").effects.filter isCookieAdd =
      [.addCookie "token" "secret"
        (cookieDomainFor ⟨none, none, none⟩
          ⟨"http", some "h", some "app.example.com", [("token", "secret")], [("html", "<p>")]⟩)
        "/"] ∧
    (∀ d, (⟨none, none, none⟩ : ServiceConfig).cookieDomain = some d → d ≠ "" →
      cookieDomainFor ⟨none, none, none⟩
        ⟨"http", some "h", some "app.example.com", [("token", "secret")], [("html", "<p>")]⟩ = d) ∧
    ((⟨none, none, none⟩ : ServiceConfig).cookieDomain = none →
      ∀ hn, (⟨"http", some "h", some "app.example.com", [("token", "secret")],
          [("html", "<p>")]⟩ : HttpRequest).hostname = some hn → hn ≠ "" →
        cookieDomainFor ⟨none, none, none⟩
          ⟨"http", some "h", some "app.example.com", [("token", "secret")], [("html", "<p>")]⟩ =
          hn) ∧
    (∀ cfg2 req2 pdfId2,
      (getKey req2.cookies "token" = none ∨ getKey req2.cookies "token" = some "") →
      (generate_pdf cfg2 req2 pdfId2).effects.filter isCookieAdd = []) :=
  token_cookie_injection ⟨none, none, none⟩
    ⟨"http", some "h", some "app.example.com", [("token", "secret")], [("html", "<p>")]⟩
    "id" "secret" rfl (by decide)

/-- C6: an entry that raises a per-file filesystem error contributes
nothing to the cycle's deletions, is itself untouched, and the rest of
the listing is processed exactly as if the entry were absent — the cycle
completes. -/
theorem sweep_file_errors_suppressed (retention now : Int)
    (es1 es2 : List DirEntry) (e : DirEntry)
    (he : raisesFileError retention now e) :
    removedEntries retention now (es1 ++ e :: es2) =
      removedEntries retention now (es1 ++ es2) ∧
    removedCount retention now (es1 ++ e :: es2) =
      removedCount retention now (es1 ++ es2) ∧
    survivors retention now (es1 ++ e :: es2) =
      survivors retention now es1 ++ e :: survivors retention now es2 := by
  have hf := sweepDeletes_eq_false_of_raises retention now e he
  have h1 : removedEntries retention now (es1 ++ e :: es2) =
      removedEntries retention now (es1 ++ es2) := by
    simp [removedEntries, List.filter_append, List.filter_cons, hf]
  refine ⟨h1, ?_, ?_⟩
  · unfold removedCount
    rw [h1]
  · simp [survivors, List.filter_append, List.filter_cons, hf]

/-- C6 witness: a stat-erroring entry in the middle of a listing changes
nothing about how the other entries are swept. -/
theorem sweep_file_errors_suppressed_witness :
    removedEntries 3600 10000
        [⟨"old.pdf", true, 0, false, false⟩, ⟨"bad.pdf", true, 1000, true, false⟩,
          ⟨"new.pdf", true, 9000, false, false⟩] =
      removedEntries 3600 10000
        [⟨"old.pdf", true, 0, false, false⟩, ⟨"new.pdf", true, 9000, false, false⟩] ∧
    removedCount 3600 10000
        [⟨"old.pdf", true, 0, false, false⟩, ⟨"bad.pdf", true, 1000, true, false⟩,
          ⟨"new.pdf", true, 9000, false, false⟩] =
      removedCount 3600 10000
        [⟨"old.pdf", true, 0, false, false⟩, ⟨"new.pdf", true, 9000, false, false⟩] ∧
    survivors 3600 10000
        [⟨"old.pdf", true, 0, false, false⟩, ⟨"bad.pdf", true, 1000, true, false⟩,
          ⟨"new.pdf", true, 9000, false, false⟩] =
      survivors 3600 10000 [⟨"old.pdf", true, 0, false, false⟩] ++
        ⟨"bad.pdf", true, 1000, true, false⟩ ::
          survivors 3600 10000 [⟨"new.pdf", true, 9000, false, false⟩] :=
  sweep_file_errors_suppressed 3600 10000
    [⟨"old.pdf", true, 0, false, false⟩] [⟨"new.pdf", true, 9000, false, false⟩]
    ⟨"bad.pdf", true, 1000, true, false⟩ ⟨rfl, Or.inl rfl⟩

/-- C7: one sweep cycle emits a log line exactly when its deletion tally
is non-zero. -/
theorem sweep_logs_iff_deletions (retention now : Int) (es : List DirEntry) :
    sweepLogs retention now es ≠ [] ↔ 0 < removedCount retention now es := by
  by_cases h : 0 < removedCount retention now es
  · simp [sweepLogs, h]
  · simp [sweepLogs, h]

/-- C8: the sweeper loop never terminates: every state has a successor
(one more iteration after sleeping for the configured interval), and no
state is terminal. -/
theorem cleanup_loop_never_terminates (cfg : SweepConfig) (s : SweeperState) :
    (∃ s', CleanupStep cfg s s' ∧ s'.time = s.time + cfg.interval) ∧
    ¬ CleanupTerminal cfg s :=
  ⟨⟨cleanupIter cfg s, rfl, rfl⟩, fun hterm => hterm (cleanupIter cfg s) rfl⟩

/-- C9: a `token` cookie with the empty string as value is treated as
absent — the handler injects no cookie into the browser context. -/
theorem empty_token_cookie_ignored (cfg : ServiceConfig) (req : HttpRequest)
    (pdfId : String) (ht : getKey req.cookies "token" = some "") :
    cookieEffects cfg req = [] ∧
    (generate_pdf cfg req pdfId).effects.filter isCookieAdd = [] := by
  refine ⟨cookieEffects_empty cfg req ht, ?_⟩
  rw [generate_pdf_cookie_filter]
  exact cookieEffects_empty cfg req ht

/-- C9 witness: concrete request with an empty-valued token cookie. -/
theorem empty_token_cookie_ignored_witness :
    cookieEffects ⟨none, none, none⟩
      ⟨"http", some "h", some "h", [("token", "")], [("html", "<p>")]⟩ = [] ∧
    (generate_pdf ⟨none, none, none⟩
      ⟨"http", some "h", some "h", [("token", "")], [("html", "<p>")]⟩
      "id").effects.filter isCookieAdd = [] :=
  empty_token_cookie_ignored ⟨none, none, none⟩
    ⟨"http", some "h", some "h", [("token", "")], [("html", "<p>")]⟩ "id" rfl

/-- C10: a regular file whose age is exactly the retention threshold is
not deleted by a sweep cycle — deletion requires age strictly greater
than the threshold. -/
theorem boundary_age_survives (retention now : Int) (es : List DirEntry)
    (e : DirEntry) (he : e ∈ es) (hage : now - e.mtime = retention) :
    e ∉ removedEntries retention now es ∧ e ∈ survivors retention now es := by
  have hf : sweepDeletes retention now e = false := by
    simp [sweepDeletes, hage]
  constructor
  · rw [removedEntries]
    intro hmem
    exact absurd ((List.mem_filter.mp hmem).2) (by simp [hf])
  · rw [survivors, List.mem_filter]
    exact ⟨he, by simp [hf]⟩

/-- C10 witness: a file aged exactly the threshold survives the cycle. -/
theorem boundary_age_survives_witness :
    (⟨"edge.pdf", true, 6400, false, false⟩ : DirEntry) ∉
      removedEntries 3600 10000 [⟨"edge.pdf", true, 6400, false, false⟩] ∧
    (⟨"edge.pdf", true, 6400, false, false⟩ : DirEntry) ∈
      survivors 3600 10000 [⟨"edge.pdf", true, 6400, false, false⟩] :=
  boundary_age_survives 3600 10000 [⟨"edge.pdf", true, 6400, false, false⟩]
    ⟨"edge.pdf", true, 6400, false, false⟩ (by decide) (by decide)

end PdfService
